import Mathlib

/-!
Verification of the breast-monitor thermal analysis engine.

Shallow embedding of `src/backend/services/analyzer.py`,
`src/backend/services/llm_service.py` and the image color analysis of
`src/backend/routers/images.py`.  Python floats are modelled as exact
rationals; Python `round(x, n)` and fixed-point formatting round half to
even on the exact value.
-/

namespace BreastMonitor

/-- Round half to even (Python `round` tie-breaking), as an integer result. -/
def rhe (q : ℚ) : ℤ :=
  if q - ⌊q⌋ < 1/2 then ⌊q⌋
  else if (1:ℚ)/2 < q - ⌊q⌋ then ⌊q⌋ + 1
  else if ⌊q⌋ % 2 = 0 then ⌊q⌋ else ⌊q⌋ + 1

/-- Python `round(q, n)`: round to `n` decimal places, half to even. -/
def roundTo (n : ℕ) (q : ℚ) : ℚ := (rhe (q * 10 ^ n) : ℚ) / 10 ^ n

/-- Left-pad a numeral string with zeros to the requested width. -/
def padZeros (n : ℕ) (s : String) : String :=
  String.mk (List.replicate (n - s.length) '0') ++ s

/-- Python fixed-point formatting of a float to `prec` decimal places. -/
def fmtFixed (prec : ℕ) (q : ℚ) : String :=
  let d : ℤ := rhe (q * 10 ^ prec)
  let sign := if d < 0 then "-" else ""
  let a := d.natAbs
  sign ++ toString (a / 10 ^ prec) ++ "." ++ padZeros prec (toString (a % 10 ^ prec))

/-- Python `str(float)` rendering of a value that carries at most two decimal
places: fixed two-decimal rendering with one trailing zero stripped
(`36.40` prints as `36.4`, `36.00` as `36.0`, `36.45` as `36.45`). -/
def showNum (q : ℚ) : String :=
  let s := fmtFixed 2 q
  if s.data.getLast? = some '0' then String.mk s.data.dropLast else s

/-- `charsPrefix pat l` decides whether `pat` starts the character list `l`. -/
def charsPrefix : List Char → List Char → Bool
  | [], _ => true
  | _ :: _, [] => false
  | a :: as, b :: bs => a == b && charsPrefix as bs

/-- `charsContains pat l` decides whether `pat` occurs contiguously in `l`. -/
def charsContains (pat : List Char) : List Char → Bool
  | [] => pat.isEmpty
  | c :: rest => charsPrefix pat (c :: rest) || charsContains pat rest

/-- The string `t` occurs contiguously inside the string `s`. -/
def strContains (s t : String) : Prop :=
  ∃ p q, s.data = p ++ t.data ++ q

/-! ## Configuration thresholds (src/backend/config.py, class Settings) -/

def ASYMMETRY_NORMAL : ℚ := 0.5

def ASYMMETRY_ELEVATED : ℚ := 1.0

def TEMP_NORMAL_MAX : ℚ := 37.5

def TEMP_ELEVATED_MAX : ℚ := 38.0

/-! ## AnalyzerService.calculate_metrics -/

/-- Result dictionary of `calculate_metrics`. -/
structure Metrics where
  avg_left : ℚ
  avg_right : ℚ
  avg_total : ℚ
  asymmetry : ℚ
  max_temp : ℚ
  min_temp : ℚ
deriving DecidableEq

/-- Python `max(temps)` (reduce of binary `max` seeded with the head). -/
def listMax : List ℚ → ℚ
  | [] => 0
  | x :: xs => xs.foldl max x

/-- Python `min(temps)`. -/
def listMin : List ℚ → ℚ
  | [] => 0
  | x :: xs => xs.foldl min x

/-- `AnalyzerService.calculate_metrics`: metrics from 8 temperature readings,
positions 0-3 the left side, 4-7 the right side. -/
def calculate_metrics (temps : List ℚ) : Metrics :=
  let left_temps := temps.take 4
  let right_temps := (temps.drop 4).take 4
  let avg_left := left_temps.sum / left_temps.length
  let avg_right := right_temps.sum / right_temps.length
  let asymmetry := |avg_left - avg_right|
  let avg_total := (avg_left + avg_right) / 2
  { avg_left := roundTo 2 avg_left
    avg_right := roundTo 2 avg_right
    avg_total := roundTo 2 avg_total
    asymmetry := roundTo 2 asymmetry
    max_temp := roundTo 2 (listMax temps)
    min_temp := roundTo 2 (listMin temps) }

/-! ## AnalyzerService.classify_risk -/

/-- `AnalyzerService.classify_risk`: risk level and anomaly descriptions from
asymmetry and maximal temperature (f-strings render with `.2f` and `.1f`). -/
def classify_risk (asymmetry max_temp : ℚ) : String × List String :=
  let anomalies : List String :=
    (if asymmetry ≥ ASYMMETRY_ELEVATED then
        ["Значительная асимметрия: " ++ fmtFixed 2 asymmetry ++ "°C"]
      else if asymmetry ≥ ASYMMETRY_NORMAL then
        ["Умеренная асимметрия: " ++ fmtFixed 2 asymmetry ++ "°C"]
      else [])
    ++
    (if max_temp ≥ TEMP_ELEVATED_MAX then
        ["Повышенная температура: " ++ fmtFixed 1 max_temp ++ "°C"]
      else if max_temp ≥ TEMP_NORMAL_MAX then
        ["Температура выше нормы: " ++ fmtFixed 1 max_temp ++ "°C"]
      else [])
  let risk_level :=
    if asymmetry ≥ ASYMMETRY_ELEVATED ∨ max_temp ≥ TEMP_ELEVATED_MAX then "HIGH"
    else if asymmetry ≥ ASYMMETRY_NORMAL ∨ max_temp ≥ TEMP_NORMAL_MAX then "ELEVATED"
    else "NORMAL"
  (risk_level, anomalies)

/-- The asymmetry-axis description list built by step 1 of `classify_risk`. -/
def asym_msgs (a : ℚ) : List String :=
  if a ≥ ASYMMETRY_ELEVATED then ["Значительная асимметрия: " ++ fmtFixed 2 a ++ "°C"]
  else if a ≥ ASYMMETRY_NORMAL then ["Умеренная асимметрия: " ++ fmtFixed 2 a ++ "°C"]
  else []

/-- The temperature-axis description list built by step 2 of `classify_risk`. -/
def temp_msgs (m : ℚ) : List String :=
  if m ≥ TEMP_ELEVATED_MAX then ["Повышенная температура: " ++ fmtFixed 1 m ++ "°C"]
  else if m ≥ TEMP_NORMAL_MAX then ["Температура выше нормы: " ++ fmtFixed 1 m ++ "°C"]
  else []

/-- Numeric rank of a risk level in the order NORMAL < ELEVATED < HIGH. -/
def level_rank (s : String) : ℕ :=
  if s = "HIGH" then 2 else if s = "ELEVATED" then 1 else 0

/-! ## AnalyzerService.find_anomaly_zones -/

/-- The fixed positional zone-label table. -/
def zone_names : List String :=
  ["Левая верхняя внутренняя",
   "Левая верхняя внешняя",
   "Левая нижняя внутренняя",
   "Левая нижняя внешняя",
   "Правая верхняя внутренняя",
   "Правая верхняя внешняя",
   "Правая нижняя внутренняя",
   "Правая нижняя внешняя"]

/-- Label emitted by `find_anomaly_zones` for zone `i` with deviation `dev`. -/
def anomaly_label (i : ℕ) (dev : ℚ) : String :=
  zone_names.getD i "" ++ ": +" ++ fmtFixed 1 dev ++ "°C"

/-- `AnalyzerService.find_anomaly_zones`: iterate zones in positional order and
flag those strictly more than 0.8°C above the flat mean. -/
def find_anomaly_zones (temps : List ℚ) : List String :=
  let avg_temp := temps.sum / temps.length
  temps.enum.foldl
    (fun anomalies p =>
      if p.2 - avg_temp > 0.8 then anomalies ++ [anomaly_label p.1 (p.2 - avg_temp)]
      else anomalies) []

/-! ## AnalyzerService.generate_conclusion -/

/-- The metric header lines shared by all three conclusion templates. -/
def conclusion_header (metrics : Metrics) : String :=
  "Средняя температура левой груди: " ++ showNum metrics.avg_left ++ "°C\n" ++
  "Средняя температура правой груди: " ++ showNum metrics.avg_right ++ "°C\n" ++
  "Асимметрия: " ++ showNum metrics.asymmetry ++ "°C\n\n"

/-- The bullet list accumulated by the `for anomaly in anomalies` loops. -/
def bullets : List String → String
  | [] => ""
  | a :: rest => ("• " ++ a ++ "\n") ++ bullets rest

/-- `AnalyzerService.generate_conclusion`: the rule-based conclusion text. -/
def generate_conclusion (metrics : Metrics) (risk_level : String)
    (anomalies : List String) : String :=
  if risk_level = "NORMAL" then
    "✅ Все показатели в пределах нормы.\n\n" ++
    conclusion_header metrics ++
    "Температурное распределение симметричное, признаков аномалий не обнаружено."
  else if risk_level = "ELEVATED" then
    "⚠️ Обнаружены незначительные отклонения.\n\n" ++
    conclusion_header metrics ++
    "Выявленные отклонения:\n" ++
    bullets anomalies ++
    ("\nРекомендации: Повторите измерение через 24-48 часов. " ++
     "При сохранении асимметрии рекомендуется консультация специалиста.")
  else
    "🔴 Обнаружены значимые отклонения от нормы.\n\n" ++
    conclusion_header metrics ++
    "Выявленные отклонения:\n" ++
    bullets anomalies ++
    ("\n⚠️ ВАЖНО: Рекомендуется обратиться к врачу-маммологу " ++
     "для дополнительного обследования.\n\n" ++
     "Данная система не является медицинским диагностическим устройством " ++
     "и не заменяет консультацию специалиста.")

/-! ## LLMService (src/backend/services/llm_service.py)

Provider effects are modelled as data: a provider attempt yields
`none` when the call raised or the client is unavailable, and `some s`
for a returned text `s` (possibly empty).  An absent credential is an
empty key string; a failed library import makes the client unavailable. -/

/-- Environment of one `LLMService.generate_conclusion` call. -/
structure LLMEnv where
  openai_key : String
  gemini_key : String
  openai_import_ok : Bool
  gemini_import_ok : Bool
  openai_response : Option String
  gemini_response : Option String

/-- `LLMService._get_openai_client`: a client exists only when the key is set
and the library import succeeds. -/
def openai_client_available (env : LLMEnv) : Bool :=
  !env.openai_key.isEmpty && env.openai_import_ok

/-- `LLMService._get_gemini_model`. -/
def gemini_model_available (env : LLMEnv) : Bool :=
  !env.gemini_key.isEmpty && env.gemini_import_ok

/-- `LLMService.generate_conclusion_openai`: `none` without a client or on any
exception, otherwise the provider's response. -/
def generate_conclusion_openai (env : LLMEnv) : Option String :=
  if openai_client_available env then env.openai_response else none

/-- `LLMService.generate_conclusion_gemini`. -/
def generate_conclusion_gemini (env : LLMEnv) : Option String :=
  if gemini_model_available env then env.gemini_response else none

/-- `LLMService._generate_rule_based`: deterministic fallback text. -/
def generate_rule_based (metrics : Metrics) (risk_level : String)
    (anomalies : List String) : String :=
  if risk_level = "NORMAL" then
    "✅ Результаты термографического анализа в пределах нормы.\n\n" ++
    "Средняя температура левой молочной железы составляет " ++
    showNum metrics.avg_left ++ "°C, правой — " ++ showNum metrics.avg_right ++
    "°C. Температурная асимметрия (" ++ showNum metrics.asymmetry ++
    "°C) находится в допустимых пределах, что свидетельствует о нормальном распределении тепла.\n\n" ++
    "Рекомендуется продолжать регулярный мониторинг. Данная система является " ++
    "вспомогательным инструментом и не заменяет консультацию врача-маммолога."
  else if risk_level = "ELEVATED" then
    let anomaly_text :=
      if anomalies.isEmpty then "незначительная асимметрия"
      else String.intercalate ", " anomalies
    "⚠️ Обнаружены незначительные отклонения от нормы.\n\n" ++
    "Выявлено: " ++ anomaly_text ++ ". Средняя температура левой молочной железы — " ++
    showNum metrics.avg_left ++ "°C, правой — " ++ showNum metrics.avg_right ++ "°C. " ++
    "Подобные отклонения могут быть связаны с естественными колебаниями температуры тела, " ++
    "физической активностью, фазой менструального цикла или внешними факторами.\n\n" ++
    "Рекомендуется повторить измерение через 24-48 часов для подтверждения результатов. " ++
    "При сохранении асимметрии рекомендуется консультация специалиста. " ++
    "Данная система не является медицинским диагностическим устройством."
  else
    let anomaly_text :=
      if anomalies.isEmpty then "значительная температурная асимметрия"
      else String.intercalate ", " anomalies
    "🔴 Обнаружены значимые отклонения от нормы.\n\n" ++
    "Выявлено: " ++ anomaly_text ++ ". Температурная асимметрия составляет " ++
    showNum metrics.asymmetry ++ "°C, что превышает пороговое значение. " ++
    "Максимальная зафиксированная температура: " ++ showNum metrics.max_temp ++
    "°C. Подобные изменения могут указывать на различные состояния, требующие внимания специалиста.\n\n" ++
    "⚠️ ВАЖНО: Рекомендуется обратиться к врачу-маммологу для дополнительного обследования. " ++
    "Данная система является вспомогательным скрининговым инструментом и НЕ заменяет " ++
    "профессиональную медицинскую диагностику. Не откладывайте визит к специалисту."

/-- The Gemini stage of `LLMService.generate_conclusion`: attempt Gemini when
its key is set (Python string truthiness); a `None` or empty response falls
through to the rule-based text. -/
def llm_gemini_stage (env : LLMEnv) (metrics : Metrics)
    (risk_level : String) (anomalies : List String) : String :=
  if env.gemini_key ≠ "" then
    match generate_conclusion_gemini env with
    | some s =>
        if s ≠ "" then s else generate_rule_based metrics risk_level anomalies
    | none => generate_rule_based metrics risk_level anomalies
  else generate_rule_based metrics risk_level anomalies

/-- `LLMService.generate_conclusion`: try OpenAI first, then Gemini, each only
when its key is set; a `None` or empty response falls through; otherwise the
rule-based text.  Mirrors Python truthiness of `if result:`. -/
def llm_generate_conclusion (env : LLMEnv) (metrics : Metrics)
    (risk_level : String) (anomalies : List String) : String :=
  if env.openai_key ≠ "" then
    match generate_conclusion_openai env with
    | some s =>
        if s ≠ "" then s else llm_gemini_stage env metrics risk_level anomalies
    | none => llm_gemini_stage env metrics risk_level anomalies
  else llm_gemini_stage env metrics risk_level anomalies

/-- The OpenAI attempt yields no usable text: missing credential, an exception
(modelled `none`) or an empty response. -/
def openai_fails (env : LLMEnv) : Prop :=
  env.openai_key = "" ∨ generate_conclusion_openai env = none ∨
    generate_conclusion_openai env = some ""

/-- The Gemini attempt yields no usable text. -/
def gemini_fails (env : LLMEnv) : Prop :=
  env.gemini_key = "" ∨ generate_conclusion_gemini env = none ∨
    generate_conclusion_gemini env = some ""

/-! ## analyze_thermal_colors (src/backend/routers/images.py)

The decoded image is a height × width grid of RGB byte triples; decoding
failure is an `Except.error` carrying the exception text.  The
`random.random()` stream of the fallback path is an explicit sequence of
samples. -/

/-- A decoded RGB raster. -/
structure Img where
  h : ℕ
  w : ℕ
  pxR : ℕ → ℕ → ℕ
  pxG : ℕ → ℕ → ℕ
  pxB : ℕ → ℕ → ℕ

/-- Sum of one channel over the tile starting at `(r0, c0)` of size
`zh × zw`. -/
def zoneSum (f : ℕ → ℕ → ℕ) (r0 c0 zh zw : ℕ) : ℕ :=
  ∑ i ∈ Finset.range zh, ∑ j ∈ Finset.range zw, f (r0 + i) (c0 + j)

/-- Mean red channel of the 2×4-grid tile at `(row, col)`. -/
def zoneAvgR (img : Img) (row col : ℕ) : ℚ :=
  let zh := img.h / 2
  let zw := img.w / 4
  (zoneSum img.pxR (row * zh) (col * zw) zh zw : ℚ) / (zh * zw)

/-- Mean green channel of the 2×4-grid tile at `(row, col)`. -/
def zoneAvgG (img : Img) (row col : ℕ) : ℚ :=
  let zh := img.h / 2
  let zw := img.w / 4
  (zoneSum img.pxG (row * zh) (col * zw) zh zw : ℚ) / (zh * zw)

/-- Temperature of one tile: red-channel baseline, minus 0.5 when the green
mean strictly exceeds 0.8 of the red mean, rounded to 1 decimal. -/
def tileTemp (img : Img) (row col : ℕ) : ℚ :=
  let r := zoneAvgR img row col
  let g := zoneAvgG img row col
  let temp := 34.0 + r / 255.0 * 5.0
  roundTo 1 (if g > r * 0.8 then temp - 0.5 else temp)

/-- The result dictionary of `analyze_thermal_colors`: `temperatures` plus the
`color_data` metadata fields. -/
structure ExtractResult where
  temperatures : List ℚ
  zones_analyzed : ℕ
  method : String
  error : Option String
deriving DecidableEq

/-- `analyze_thermal_colors`: on a decoded image, tile temperatures of the 2×4
grid in row-major order; on failure, 8 simulated values
`round(36.0 + random() * 1.5, 1)` with the failure reason recorded. -/
def analyze_thermal_colors (input : Except String Img) (rand : ℕ → ℚ) :
    ExtractResult :=
  match input with
  | Except.ok img =>
      { temperatures :=
          ((List.range 2).map (fun row =>
            (List.range 4).map (fun col => tileTemp img row col))).flatten
        zones_analyzed := 8
        method := "rgb_mapping"
        error := none }
  | Except.error e =>
      { temperatures := (List.range 8).map (fun k => roundTo 1 (36.0 + rand k * 1.5))
        zones_analyzed := 8
        method := "simulated"
        error := some e }

/-! ## Rounding lemmas -/

theorem rhe_cases (q : ℚ) : rhe q = ⌊q⌋ ∨ rhe q = ⌊q⌋ + 1 := by
  unfold rhe
  split_ifs <;> simp

/-! ## calculate_metrics: evaluation on an explicit 8-element reading -/

theorem calculate_metrics_eval (t0 t1 t2 t3 t4 t5 t6 t7 : ℚ) :
    calculate_metrics [t0, t1, t2, t3, t4, t5, t6, t7] =
      { avg_left := roundTo 2 ((t0 + t1 + t2 + t3) / 4)
        avg_right := roundTo 2 ((t4 + t5 + t6 + t7) / 4)
        avg_total := roundTo 2 (((t0 + t1 + t2 + t3) / 4 + (t4 + t5 + t6 + t7) / 4) / 2)
        asymmetry := roundTo 2 |(t0 + t1 + t2 + t3) / 4 - (t4 + t5 + t6 + t7) / 4|
        max_temp := roundTo 2 (max (max (max (max (max (max (max t0 t1) t2) t3) t4) t5) t6) t7)
        min_temp := roundTo 2 (min (min (min (min (min (min (min t0 t1) t2) t3) t4) t5) t6) t7) } := by
  have h1 : List.take 4 [t0, t1, t2, t3, t4, t5, t6, t7] = [t0, t1, t2, t3] := rfl
  have h2 : List.take 4 (List.drop 4 [t0, t1, t2, t3, t4, t5, t6, t7]) = [t4, t5, t6, t7] := rfl
  simp only [calculate_metrics, listMax, listMin, h1, h2, List.foldl_cons, List.foldl_nil,
    List.sum_cons, List.sum_nil, List.length_cons, List.length_nil]
  congr 1 <;> exact congrArg (roundTo 2) (by push_cast; ring_nf)

/-- With four zones on each side, the average of the two side averages is
exactly the flat mean of all eight values. -/
theorem avg_total_eq_flat_mean (t0 t1 t2 t3 t4 t5 t6 t7 : ℚ) :
    (calculate_metrics [t0, t1, t2, t3, t4, t5, t6, t7]).avg_total =
      roundTo 2 ((t0 + t1 + t2 + t3 + t4 + t5 + t6 + t7) / 8) := by
  rw [calculate_metrics_eval]
  exact congrArg (roundTo 2) (by ring_nf)

/-- C2: for every 8-element reading, `calculate_metrics` returns the six
fields avg_left = round(mean(r[0:4]), 2), avg_right = round(mean(r[4:8]), 2),
avg_total = round((mean(r[0:4]) + mean(r[4:8])) / 2, 2),
asymmetry = round(|mean(r[0:4]) − mean(r[4:8])|, 2), max_temp = round(max r, 2)
and min_temp = round(min r, 2), all rounded to 2 decimal places, defined with
no error condition on any input, including negative or extreme values. -/
theorem c2_calculate_metrics_fields (t0 t1 t2 t3 t4 t5 t6 t7 : ℚ) :
    (calculate_metrics [t0, t1, t2, t3, t4, t5, t6, t7]).avg_left =
        roundTo 2 ((t0 + t1 + t2 + t3) / 4) ∧
      (calculate_metrics [t0, t1, t2, t3, t4, t5, t6, t7]).avg_right =
        roundTo 2 ((t4 + t5 + t6 + t7) / 4) ∧
      (calculate_metrics [t0, t1, t2, t3, t4, t5, t6, t7]).avg_total =
        roundTo 2 (((t0 + t1 + t2 + t3) / 4 + (t4 + t5 + t6 + t7) / 4) / 2) ∧
      (calculate_metrics [t0, t1, t2, t3, t4, t5, t6, t7]).asymmetry =
        roundTo 2 |(t0 + t1 + t2 + t3) / 4 - (t4 + t5 + t6 + t7) / 4| ∧
      (calculate_metrics [t0, t1, t2, t3, t4, t5, t6, t7]).max_temp =
        roundTo 2 (max (max (max (max (max (max (max t0 t1) t2) t3) t4) t5) t6) t7) ∧
      (calculate_metrics [t0, t1, t2, t3, t4, t5, t6, t7]).min_temp =
        roundTo 2 (min (min (min (min (min (min (min t0 t1) t2) t3) t4) t5) t6) t7) := by
  rw [calculate_metrics_eval]
  exact ⟨rfl, rfl, rfl, rfl, rfl, rfl⟩

/-- C8 (amended): avg_total is round((avg_left + avg_right)/2, 2), computed
from the two side averages; because both sides hold exactly four zones, this
coincides with the rounded flat mean of all 8 raw values on every reading, so
no reading separates the two formulas. -/
theorem c8_avg_total_of_side_averages (t0 t1 t2 t3 t4 t5 t6 t7 : ℚ) :
    (calculate_metrics [t0, t1, t2, t3, t4, t5, t6, t7]).avg_total =
        roundTo 2 (((t0 + t1 + t2 + t3) / 4 + (t4 + t5 + t6 + t7) / 4) / 2) ∧
      (calculate_metrics [t0, t1, t2, t3, t4, t5, t6, t7]).avg_total =
        roundTo 2 ((t0 + t1 + t2 + t3 + t4 + t5 + t6 + t7) / 8) := by
  refine ⟨?_, avg_total_eq_flat_mean t0 t1 t2 t3 t4 t5 t6 t7⟩
  rw [calculate_metrics_eval]

/-- C8 counterexample: the claim asserts that some reading makes avg_total
differ from the rounded flat mean of all 8 values; no such reading exists —
with four zones per side the two formulas agree everywhere. -/
theorem c8_no_reading_separates_flat_mean :
    ¬ ∃ t0 t1 t2 t3 t4 t5 t6 t7 : ℚ,
        (calculate_metrics [t0, t1, t2, t3, t4, t5, t6, t7]).avg_total ≠
          roundTo 2 ((t0 + t1 + t2 + t3 + t4 + t5 + t6 + t7) / 8) := by
  rintro ⟨t0, t1, t2, t3, t4, t5, t6, t7, h⟩
  exact h (avg_total_eq_flat_mean t0 t1 t2 t3 t4 t5 t6 t7)

/-! ## classify_risk characterization -/

theorem classify_risk_fst (a m : ℚ) :
    (classify_risk a m).1 =
      if a ≥ ASYMMETRY_ELEVATED ∨ m ≥ TEMP_ELEVATED_MAX then "HIGH"
      else if a ≥ ASYMMETRY_NORMAL ∨ m ≥ TEMP_NORMAL_MAX then "ELEVATED"
      else "NORMAL" := rfl

theorem classify_risk_snd (a m : ℚ) :
    (classify_risk a m).2 =
      (if a ≥ ASYMMETRY_ELEVATED then
          ["Значительная асимметрия: " ++ fmtFixed 2 a ++ "°C"]
        else if a ≥ ASYMMETRY_NORMAL then
          ["Умеренная асимметрия: " ++ fmtFixed 2 a ++ "°C"]
        else [])
      ++
      (if m ≥ TEMP_ELEVATED_MAX then
          ["Повышенная температура: " ++ fmtFixed 1 m ++ "°C"]
        else if m ≥ TEMP_NORMAL_MAX then
          ["Температура выше нормы: " ++ fmtFixed 1 m ++ "°C"]
        else []) := rfl

/-- C1: classify_risk returns HIGH iff asymmetry ≥ 1.0 or max_temp ≥ 38.0;
otherwise ELEVATED iff asymmetry ≥ 0.5 or max_temp ≥ 37.5; otherwise NORMAL —
a logical OR across the two axes with all four thresholds inclusive; either
axis reaching its HIGH threshold forces HIGH regardless of the other. -/
theorem c1_classify_risk_thresholds (a m : ℚ) :
    ((classify_risk a m).1 = "HIGH" ↔ (a ≥ 1.0 ∨ m ≥ 38.0)) ∧
      ((classify_risk a m).1 = "ELEVATED" ↔
        (¬(a ≥ 1.0 ∨ m ≥ 38.0) ∧ (a ≥ 0.5 ∨ m ≥ 37.5))) ∧
      ((classify_risk a m).1 = "NORMAL" ↔ (a < 0.5 ∧ m < 37.5)) ∧
      (classify_risk a 38.0).1 = "HIGH" ∧
      (classify_risk 1.0 m).1 = "HIGH" := by
  refine ⟨?_, ?_, ?_, ?_, ?_⟩
  · rw [classify_risk_fst]
    unfold ASYMMETRY_ELEVATED ASYMMETRY_NORMAL TEMP_ELEVATED_MAX TEMP_NORMAL_MAX
    split_ifs with h1 h2
    · exact iff_of_true rfl h1
    · exact iff_of_false (by decide) h1
    · exact iff_of_false (by decide) h1
  · rw [classify_risk_fst]
    unfold ASYMMETRY_ELEVATED ASYMMETRY_NORMAL TEMP_ELEVATED_MAX TEMP_NORMAL_MAX
    split_ifs with h1 h2
    · exact iff_of_false (by decide) (fun hc => hc.1 h1)
    · exact iff_of_true rfl ⟨h1, h2⟩
    · exact iff_of_false (by decide) (fun hc => h2 hc.2)
  · rw [classify_risk_fst]
    unfold ASYMMETRY_ELEVATED ASYMMETRY_NORMAL TEMP_ELEVATED_MAX TEMP_NORMAL_MAX
    split_ifs with h1 h2
    · refine iff_of_false (by decide) (fun hc => ?_)
      rcases h1 with h | h <;> [linarith [hc.1]; linarith [hc.2]]
    · refine iff_of_false (by decide) (fun hc => ?_)
      rcases h2 with h | h <;> [linarith [hc.1]; linarith [hc.2]]
    · refine iff_of_true rfl ⟨?_, ?_⟩
      · exact not_le.mp (fun hh => h2 (Or.inl hh))
      · exact not_le.mp (fun hh => h2 (Or.inr hh))
  · rw [classify_risk_fst, if_pos (Or.inr (by norm_num [TEMP_ELEVATED_MAX]))]
  · rw [classify_risk_fst, if_pos (Or.inl (by norm_num [ASYMMETRY_ELEVATED]))]

/-! ## String containment lemmas -/

theorem strContains_self (t : String) : strContains t t :=
  ⟨[], [], by simp⟩

theorem strContains_left (s t u : String) (h : strContains s u) :
    strContains (s ++ t) u := by
  obtain ⟨p, q, hp⟩ := h
  exact ⟨p, q ++ t.data, by rw [String.data_append, hp]; simp⟩

theorem strContains_right (s t u : String) (h : strContains t u) :
    strContains (s ++ t) u := by
  obtain ⟨p, q, hp⟩ := h
  exact ⟨s.data ++ p, q, by rw [String.data_append, hp]; simp⟩

theorem charsPrefix_append (pat q : List Char) :
    charsPrefix pat (pat ++ q) = true := by
  induction pat with
  | nil => rfl
  | cons a as ih => simp [charsPrefix, ih]

theorem charsContains_parts (pat p q : List Char) :
    charsContains pat (p ++ pat ++ q) = true := by
  induction p with
  | nil =>
    cases pat with
    | nil =>
      cases q with
      | nil => rfl
      | cons c cs => simp [charsContains, charsPrefix]
    | cons c cs =>
      simp only [List.nil_append, List.cons_append, charsContains, Bool.or_eq_true]
      exact Or.inl (charsPrefix_append (c :: cs) q)
  | cons c p ih =>
    simp only [List.cons_append, charsContains, Bool.or_eq_true]
    exact Or.inr ih

/-- Soundness of the executable containment check: a `false` verdict refutes
`strContains`. -/
theorem not_strContains_of_check (s t : String)
    (h : charsContains t.data s.data = false) : ¬ strContains s t := by
  rintro ⟨p, q, hp⟩
  rw [hp, charsContains_parts] at h
  simp at h

/-! ## level_rank and monotonicity -/

theorem level_rank_high : level_rank "HIGH" = 2 := rfl

theorem level_rank_elevated : level_rank "ELEVATED" = 1 := rfl

theorem level_rank_normal : level_rank "NORMAL" = 0 := rfl

theorem level_rank_classify_mono (a a' m m' : ℚ) (ha : a ≤ a') (hm : m ≤ m') :
    level_rank (classify_risk a m).1 ≤ level_rank (classify_risk a' m').1 := by
  rw [classify_risk_fst, classify_risk_fst]
  by_cases h1 : a ≥ ASYMMETRY_ELEVATED ∨ m ≥ TEMP_ELEVATED_MAX
  · have h1' : a' ≥ ASYMMETRY_ELEVATED ∨ m' ≥ TEMP_ELEVATED_MAX :=
      h1.imp (fun h => le_trans h ha) (fun h => le_trans h hm)
    rw [if_pos h1, if_pos h1']
  · rw [if_neg h1]
    by_cases h2 : a ≥ ASYMMETRY_NORMAL ∨ m ≥ TEMP_NORMAL_MAX
    · have h2' : a' ≥ ASYMMETRY_NORMAL ∨ m' ≥ TEMP_NORMAL_MAX :=
        h2.imp (fun h => le_trans h ha) (fun h => le_trans h hm)
      rw [if_pos h2]
      by_cases h1' : a' ≥ ASYMMETRY_ELEVATED ∨ m' ≥ TEMP_ELEVATED_MAX
      · rw [if_pos h1', level_rank_elevated, level_rank_high]
        norm_num
      · rw [if_neg h1', if_pos h2']
    · rw [if_neg h2, level_rank_normal]
      exact Nat.zero_le _

/-- C7: risk-level monotonicity — for fixed asymmetry, raising max_temp never
lowers the level, and for fixed max_temp, raising asymmetry never lowers the
level, in the order NORMAL < ELEVATED < HIGH. -/
theorem c7_classify_risk_monotone (a a' m m' : ℚ) (ha : a ≤ a') (hm : m ≤ m') :
    level_rank (classify_risk a m).1 ≤ level_rank (classify_risk a m').1 ∧
      level_rank (classify_risk a m).1 ≤ level_rank (classify_risk a' m).1 :=
  ⟨level_rank_classify_mono a a m m' le_rfl hm,
   level_rank_classify_mono a a' m m ha le_rfl⟩

/-- C7 witness: concrete instance of the monotonicity theorem. -/
theorem c7_classify_risk_monotone_witness :
    (0:ℚ) ≤ 1 ∧ (37:ℚ) ≤ 38 ∧
      level_rank (classify_risk 0 37).1 ≤ level_rank (classify_risk 0 38).1 ∧
      level_rank (classify_risk 0 37).1 ≤ level_rank (classify_risk 1 37).1 :=
  ⟨by norm_num, by norm_num,
   (c7_classify_risk_monotone 0 1 37 38 (by norm_num) (by norm_num)).1,
   (c7_classify_risk_monotone 0 1 37 38 (by norm_num) (by norm_num)).2⟩

/-! ## classify_risk anomaly-list structure (C10) -/

theorem classify_snd_eq (a m : ℚ) :
    (classify_risk a m).2 = asym_msgs a ++ temp_msgs m := rfl

theorem classify_fst_normal_iff (a m : ℚ) :
    (classify_risk a m).1 = "NORMAL" ↔
      (¬a ≥ ASYMMETRY_NORMAL ∧ ¬m ≥ TEMP_NORMAL_MAX) := by
  rw [classify_risk_fst]
  split_ifs with h1 h2
  · refine iff_of_false (by decide) (fun hc => ?_)
    rcases h1 with h | h
    · exact hc.1 (le_trans (by norm_num [ASYMMETRY_NORMAL, ASYMMETRY_ELEVATED]) h)
    · exact hc.2 (le_trans (by norm_num [TEMP_NORMAL_MAX, TEMP_ELEVATED_MAX]) h)
  · exact iff_of_false (by decide) (fun hc => h2.elim hc.1 hc.2)
  · exact iff_of_true rfl ⟨fun h => h2 (Or.inl h), fun h => h2 (Or.inr h)⟩

theorem asym_msgs_eq_nil_iff (a : ℚ) : asym_msgs a = [] ↔ ¬a ≥ ASYMMETRY_NORMAL := by
  unfold asym_msgs
  split_ifs with h1 h2
  · exact iff_of_false (by simp)
      (fun hc => hc (le_trans (by norm_num [ASYMMETRY_NORMAL, ASYMMETRY_ELEVATED]) h1))
  · exact iff_of_false (by simp) (fun hc => hc h2)
  · exact iff_of_true rfl h2

theorem temp_msgs_eq_nil_iff (m : ℚ) : temp_msgs m = [] ↔ ¬m ≥ TEMP_NORMAL_MAX := by
  unfold temp_msgs
  split_ifs with h1 h2
  · exact iff_of_false (by simp)
      (fun hc => hc (le_trans (by norm_num [TEMP_NORMAL_MAX, TEMP_ELEVATED_MAX]) h1))
  · exact iff_of_false (by simp) (fun hc => hc h2)
  · exact iff_of_true rfl h2

theorem asym_msgs_length (a : ℚ) : (asym_msgs a).length ≤ 1 := by
  unfold asym_msgs
  split_ifs <;> simp

theorem temp_msgs_length (m : ℚ) : (temp_msgs m).length ≤ 1 := by
  unfold temp_msgs
  split_ifs <;> simp

theorem asym_msgs_of_ge (a : ℚ) (h : a ≥ ASYMMETRY_NORMAL) :
    ∃ s, asym_msgs a = [s] ∧ strContains s "асимметрия" := by
  unfold asym_msgs
  split_ifs with h1
  · refine ⟨_, rfl, ?_⟩
    exact strContains_left _ _ _ (strContains_left _ _ _
      ⟨"Значительная ".data, ": ".data, by decide⟩)
  · refine ⟨_, rfl, ?_⟩
    exact strContains_left _ _ _ (strContains_left _ _ _
      ⟨"Умеренная ".data, ": ".data, by decide⟩)

theorem temp_msgs_of_ge (m : ℚ) (h : m ≥ TEMP_NORMAL_MAX) :
    ∃ t, temp_msgs m = [t] ∧ strContains t "емператур" := by
  unfold temp_msgs
  split_ifs with h1
  · refine ⟨_, rfl, ?_⟩
    exact strContains_left _ _ _ (strContains_left _ _ _
      ⟨"Повышенная т".data, "а: ".data, by decide⟩)
  · refine ⟨_, rfl, ?_⟩
    exact strContains_left _ _ _ (strContains_left _ _ _
      ⟨"Т".data, "а выше нормы: ".data, by decide⟩)

/-- C10: classify_risk yields NORMAL exactly when its anomaly-description list
is empty; the list never holds more than two entries (at most one per axis),
and when both axes contribute the asymmetry description comes first, followed
by the temperature description. -/
theorem c10_classify_risk_anomaly_invariant (a m : ℚ) :
    ((classify_risk a m).1 = "NORMAL" ↔ (classify_risk a m).2 = []) ∧
      (classify_risk a m).2.length ≤ 2 ∧
      (a ≥ 0.5 → m ≥ 37.5 →
        ∃ s t, (classify_risk a m).2 = [s, t] ∧
          strContains s "асимметрия" ∧ strContains t "емператур") := by
  refine ⟨?_, ?_, ?_⟩
  · rw [classify_fst_normal_iff, classify_snd_eq, List.append_eq_nil,
      asym_msgs_eq_nil_iff, temp_msgs_eq_nil_iff]
  · rw [classify_snd_eq, List.length_append]
    have h1 := asym_msgs_length a
    have h2 := temp_msgs_length m
    omega
  · intro h2 h4
    obtain ⟨s, hs, hcs⟩ := asym_msgs_of_ge a h2
    obtain ⟨t, ht, hct⟩ := temp_msgs_of_ge m h4
    exact ⟨s, t, by rw [classify_snd_eq, hs, ht]; rfl, hcs, hct⟩

/-- C10 witness: both axes at their lower thresholds give a two-entry list,
asymmetry description first. -/
theorem c10_classify_risk_anomaly_invariant_witness :
    ((0.5:ℚ) ≥ 0.5) ∧ ((37.5:ℚ) ≥ 37.5) ∧
      ∃ s t, (classify_risk 0.5 37.5).2 = [s, t] ∧
        strContains s "асимметрия" ∧ strContains t "емператур" :=
  ⟨le_refl _, le_refl _,
   (c10_classify_risk_anomaly_invariant 0.5 37.5).2.2 (le_refl _) (le_refl _)⟩

/-! ## find_anomaly_zones (C3) -/

/-- An append-accumulating flagging loop is a filter followed by a map. -/
theorem foldl_flag_eq_filter_map {α β : Type} (P : α → Prop) [DecidablePred P]
    (g : α → β) (l : List α) (acc : List β) :
    l.foldl (fun r x => if P x then r ++ [g x] else r) acc =
      acc ++ (l.filter (fun x => decide (P x))).map g := by
  induction l generalizing acc with
  | nil => simp
  | cons x xs ih =>
    by_cases h : P x
    · simp [List.foldl_cons, if_pos h, ih, h, List.filter_cons]
    · simp [List.foldl_cons, if_neg h, ih, h, List.filter_cons]

/-- C3: on an 8-element reading, find_anomaly_zones walks zones in fixed
positional order 0..7 and emits a labeled entry exactly for the zones whose
deviation from the flat mean of all 8 values strictly exceeds 0.8; a deviation
of exactly 0.8 or less (including every cooler-than-average zone) is never
flagged. -/
theorem c3_find_anomaly_zones_spec (temps : List ℚ) (h : temps.length = 8) :
    find_anomaly_zones temps =
      (temps.enum.filter (fun p => decide (p.2 - temps.sum / 8 > 0.8))).map
        (fun p => anomaly_label p.1 (p.2 - temps.sum / 8)) := by
  have hl : ((temps.length : ℕ) : ℚ) = 8 := by rw [h]; norm_num
  simp only [find_anomaly_zones, hl]
  exact (foldl_flag_eq_filter_map (fun p : ℕ × ℚ => p.2 - temps.sum / 8 > 0.8)
    (fun p : ℕ × ℚ => anomaly_label p.1 (p.2 - temps.sum / 8)) temps.enum []).trans
    (List.nil_append _)

/-- C3 witness: the spec scenario with a uniformly warmer right side. -/
theorem c3_find_anomaly_zones_spec_witness :
    ([36, 36, 36, 36, 38.5, 38.5, 38.5, 38.5] : List ℚ).length = 8 ∧
      find_anomaly_zones [36, 36, 36, 36, 38.5, 38.5, 38.5, 38.5] =
        (([36, 36, 36, 36, 38.5, 38.5, 38.5, 38.5] : List ℚ).enum.filter
            (fun p =>
              decide (p.2 - [36, 36, 36, 36, 38.5, 38.5, 38.5, 38.5].sum / 8 > 0.8))).map
          (fun p =>
            anomaly_label p.1
              (p.2 - [36, 36, 36, 36, 38.5, 38.5, 38.5, 38.5].sum / 8)) :=
  ⟨rfl, c3_find_anomaly_zones_spec [36, 36, 36, 36, 38.5, 38.5, 38.5, 38.5] rfl⟩

/-! ## generate_conclusion content (C9) -/

theorem bullets_contains (anomalies : List String) (a : String) (h : a ∈ anomalies) :
    strContains (bullets anomalies) ("• " ++ a ++ "\n") := by
  induction anomalies with
  | nil => cases h
  | cons x rest ih =>
    rcases List.mem_cons.mp h with rfl | hmem
    · exact strContains_left _ _ _ (strContains_self _)
    · exact strContains_right _ _ _ (ih hmem)

theorem header_contains_avg_left (m : Metrics) :
    strContains (conclusion_header m) (showNum m.avg_left) :=
  strContains_left _ _ _ (strContains_left _ _ _ (strContains_left _ _ _
    (strContains_left _ _ _ (strContains_left _ _ _ (strContains_left _ _ _
      (strContains_left _ _ _ (strContains_right _ _ _ (strContains_self _))))))))

theorem header_contains_avg_right (m : Metrics) :
    strContains (conclusion_header m) (showNum m.avg_right) :=
  strContains_left _ _ _ (strContains_left _ _ _ (strContains_left _ _ _
    (strContains_left _ _ _ (strContains_right _ _ _ (strContains_self _)))))

theorem header_contains_asymmetry (m : Metrics) :
    strContains (conclusion_header m) (showNum m.asymmetry) :=
  strContains_left _ _ _ (strContains_right _ _ _ (strContains_self _))

/-- Every conclusion template of `generate_conclusion` embeds the whole
metric header. -/
theorem generate_conclusion_contains_header (m : Metrics) (rl : String)
    (an : List String) (u : String) (h : strContains (conclusion_header m) u) :
    strContains (generate_conclusion m rl an) u := by
  unfold generate_conclusion
  split_ifs
  · exact strContains_left _ _ _ (strContains_right _ _ _ h)
  · exact strContains_left _ _ _ (strContains_left _ _ _ (strContains_left _ _ _
      (strContains_right _ _ _ h)))
  · exact strContains_left _ _ _ (strContains_left _ _ _ (strContains_left _ _ _
      (strContains_right _ _ _ h)))

theorem generate_conclusion_elevated_contains_bullet (m : Metrics)
    (an : List String) (a : String) (h : a ∈ an) :
    strContains (generate_conclusion m "ELEVATED" an) ("• " ++ a ++ "\n") := by
  unfold generate_conclusion
  rw [if_neg (by decide), if_pos rfl]
  exact strContains_left _ _ _ (strContains_right _ _ _ (bullets_contains an a h))

theorem generate_conclusion_high_contains_bullet (m : Metrics)
    (an : List String) (a : String) (h : a ∈ an) :
    strContains (generate_conclusion m "HIGH" an) ("• " ++ a ++ "\n") := by
  unfold generate_conclusion
  rw [if_neg (by decide), if_neg (by decide)]
  exact strContains_left _ _ _ (strContains_right _ _ _ (bullets_contains an a h))

/-- C9 (amended): every template embeds avg_left, avg_right and asymmetry;
ELEVATED and HIGH embed each anomaly description as a bullet line; the
explicit non-replacement disclaimer appears on the HIGH path only, while
ELEVATED closes with a re-measurement recommendation and a specialist
consultation advice, and NORMAL closes with a no-anomalies note. -/
theorem c9_generate_conclusion_content (m : Metrics) (an : List String) :
    strContains (generate_conclusion m "NORMAL" an) (showNum m.avg_left) ∧
      strContains (generate_conclusion m "NORMAL" an) (showNum m.avg_right) ∧
      strContains (generate_conclusion m "NORMAL" an) (showNum m.asymmetry) ∧
      strContains (generate_conclusion m "ELEVATED" an) (showNum m.avg_left) ∧
      strContains (generate_conclusion m "ELEVATED" an) (showNum m.avg_right) ∧
      strContains (generate_conclusion m "ELEVATED" an) (showNum m.asymmetry) ∧
      strContains (generate_conclusion m "HIGH" an) (showNum m.avg_left) ∧
      strContains (generate_conclusion m "HIGH" an) (showNum m.avg_right) ∧
      strContains (generate_conclusion m "HIGH" an) (showNum m.asymmetry) ∧
      (∀ a, a ∈ an →
        strContains (generate_conclusion m "ELEVATED" an) ("• " ++ a ++ "\n")) ∧
      (∀ a, a ∈ an →
        strContains (generate_conclusion m "HIGH" an) ("• " ++ a ++ "\n")) ∧
      strContains (generate_conclusion m "HIGH" an)
        "не заменяет консультацию специалиста" ∧
      strContains (generate_conclusion m "ELEVATED" an)
        "рекомендуется консультация специалиста" ∧
      strContains (generate_conclusion m "NORMAL" an)
        "признаков аномалий не обнаружено" := by
  refine ⟨generate_conclusion_contains_header m _ an _ (header_contains_avg_left m),
    generate_conclusion_contains_header m _ an _ (header_contains_avg_right m),
    generate_conclusion_contains_header m _ an _ (header_contains_asymmetry m),
    generate_conclusion_contains_header m _ an _ (header_contains_avg_left m),
    generate_conclusion_contains_header m _ an _ (header_contains_avg_right m),
    generate_conclusion_contains_header m _ an _ (header_contains_asymmetry m),
    generate_conclusion_contains_header m _ an _ (header_contains_avg_left m),
    generate_conclusion_contains_header m _ an _ (header_contains_avg_right m),
    generate_conclusion_contains_header m _ an _ (header_contains_asymmetry m),
    fun a h => generate_conclusion_elevated_contains_bullet m an a h,
    fun a h => generate_conclusion_high_contains_bullet m an a h,
    ?_, ?_, ?_⟩
  · unfold generate_conclusion
    rw [if_neg (by decide), if_neg (by decide)]
    exact strContains_right _ _ _ (strContains_right _ _ _
      ⟨"и ".data, ".".data, by decide⟩)
  · unfold generate_conclusion
    rw [if_neg (by decide), if_pos rfl]
    exact strContains_right _ _ _ (strContains_right _ _ _
      ⟨"При сохранении асимметрии ".data, ".".data, by decide⟩)
  · unfold generate_conclusion
    rw [if_pos rfl]
    exact strContains_right _ _ _
      ⟨"Температурное распределение симметричное, ".data, ".".data, by decide⟩

/-- C9 witness: a concrete anomaly description appears as a bullet line of the
ELEVATED conclusion. -/
theorem c9_generate_conclusion_content_witness :
    ("Умеренная асимметрия: 0.50°C" ∈ ["Умеренная асимметрия: 0.50°C"]) ∧
      strContains
        (generate_conclusion ⟨36, 36, 36, 0, 36, 36⟩ "ELEVATED"
          ["Умеренная асимметрия: 0.50°C"])
        ("• " ++ "Умеренная асимметрия: 0.50°C" ++ "\n") :=
  ⟨List.mem_cons_self _ _,
   (c9_generate_conclusion_content ⟨36, 36, 36, 0, 36, 36⟩
        ["Умеренная асимметрия: 0.50°C"]).2.2.2.2.2.2.2.2.2.1
      "Умеренная асимметрия: 0.50°C" (List.mem_cons_self _ _)⟩

theorem showNum_c36 : showNum (36:ℚ) = "36.0" := by
  have h : rhe ((36:ℚ) * 10 ^ 2) = 3600 := by norm_num [rhe]
  simp only [showNum, fmtFixed, h]
  decide

theorem showNum_c0 : showNum (0:ℚ) = "0.0" := by
  have h : rhe ((0:ℚ) * 10 ^ 2) = 0 := by norm_num [rhe]
  simp only [showNum, fmtFixed, h]
  decide

set_option maxRecDepth 40000 in
/-- C9 counterexample: the ELEVATED conclusion of a concrete reading contains
no occurrence of the non-replacement disclaimer (the phrase "не заменяет"),
refuting the claim that the disclaimer accompanies both ELEVATED and HIGH. -/
theorem c9_elevated_lacks_disclaimer_counterexample :
    ¬ strContains (generate_conclusion ⟨36, 36, 36, 0, 36, 36⟩ "ELEVATED" [])
        "не заменяет" := by
  have hc : generate_conclusion ⟨36, 36, 36, 0, 36, 36⟩ "ELEVATED" [] =
      "⚠️ Обнаружены незначительные отклонения.\n\n" ++
        ("Средняя температура левой груди: " ++ "36.0" ++ "°C\n" ++
          "Средняя температура правой груди: " ++ "36.0" ++ "°C\n" ++
          "Асимметрия: " ++ "0.0" ++ "°C\n\n") ++
        "Выявленные отклонения:\n" ++ "" ++
        ("\nРекомендации: Повторите измерение через 24-48 часов. " ++
          "При сохранении асимметрии рекомендуется консультация специалиста.") := by
    unfold generate_conclusion conclusion_header
    rw [if_neg (by decide), if_pos rfl]
    simp only [showNum_c36, showNum_c0, bullets]
  apply not_strContains_of_check
  rw [hc]
  decide

/-! ## LLMService.generate_conclusion fallback (C4) -/

theorem llm_gemini_stage_of_fails (env : LLMEnv) (m : Metrics) (rl : String)
    (an : List String) (h : gemini_fails env) :
    llm_gemini_stage env m rl an = generate_rule_based m rl an := by
  unfold llm_gemini_stage
  rcases h with hk | hG | hG
  · rw [if_neg (not_not_intro hk)]
  · by_cases h1 : env.gemini_key ≠ ""
    · rw [if_pos h1, hG]
    · rw [if_neg h1]
  · by_cases h1 : env.gemini_key ≠ ""
    · rw [if_pos h1, hG]
      rfl
    · rw [if_neg h1]

theorem llm_gemini_stage_of_success (env : LLMEnv) (m : Metrics) (rl : String)
    (an : List String) (s : String) (hG : generate_conclusion_gemini env = some s)
    (hs : s ≠ "") (hkey : env.gemini_key ≠ "") :
    llm_gemini_stage env m rl an = s := by
  unfold llm_gemini_stage
  rw [if_pos hkey, hG]
  show (if s ≠ "" then s else generate_rule_based m rl an) = s
  rw [if_pos hs]

theorem llm_outer_of_openai_fails (env : LLMEnv) (m : Metrics) (rl : String)
    (an : List String) (h : openai_fails env) :
    llm_generate_conclusion env m rl an = llm_gemini_stage env m rl an := by
  unfold llm_generate_conclusion
  rcases h with hk | hO | hO
  · rw [if_neg (not_not_intro hk)]
  · by_cases hkey : env.openai_key ≠ ""
    · rw [if_pos hkey, hO]
    · rw [if_neg hkey]
  · by_cases hkey : env.openai_key ≠ ""
    · rw [if_pos hkey, hO]
      rfl
    · rw [if_neg hkey]

/-- C4: the conclusion generator is OpenAI-first then Gemini; a failed, empty
or credential-less attempt falls through to the next candidate instead of
propagating, and when both providers fail it returns exactly the rule-based
text of the triple — a pure function of the inputs, hence byte-identical
across repeated calls. -/
theorem c4_llm_generate_conclusion_fallback (env : LLMEnv) (m : Metrics)
    (rl : String) (an : List String) :
    (openai_fails env → gemini_fails env →
        llm_generate_conclusion env m rl an = generate_rule_based m rl an) ∧
      (∀ s, generate_conclusion_openai env = some s → s ≠ "" →
        env.openai_key ≠ "" → llm_generate_conclusion env m rl an = s) ∧
      (openai_fails env → ∀ s, generate_conclusion_gemini env = some s →
        s ≠ "" → env.gemini_key ≠ "" →
        llm_generate_conclusion env m rl an = s) := by
  refine ⟨?_, ?_, ?_⟩
  · intro h1 h2
    exact (llm_outer_of_openai_fails env m rl an h1).trans
      (llm_gemini_stage_of_fails env m rl an h2)
  · intro s hO hs hkey
    unfold llm_generate_conclusion
    rw [if_pos hkey, hO]
    show (if s ≠ "" then s else llm_gemini_stage env m rl an) = s
    rw [if_pos hs]
  · intro h1 s hG hs hkey
    exact (llm_outer_of_openai_fails env m rl an h1).trans
      (llm_gemini_stage_of_success env m rl an s hG hs hkey)

/-- C4 witness: with no credentials at all, the generator returns exactly the
rule-based text. -/
theorem c4_llm_generate_conclusion_fallback_witness :
    llm_generate_conclusion ⟨"", "", true, true, none, none⟩
        ⟨36, 36, 36, 0, 36, 36⟩ "NORMAL" [] =
      generate_rule_based ⟨36, 36, 36, 0, 36, 36⟩ "NORMAL" [] :=
  (c4_llm_generate_conclusion_fallback ⟨"", "", true, true, none, none⟩
      ⟨36, 36, 36, 0, 36, 36⟩ "NORMAL" []).1 (Or.inl rfl) (Or.inl rfl)

/-! ## analyze_thermal_colors (C5, C6) -/

/-- Bounds of one simulated fallback temperature: the rounded value of a
sample in [36.0, 37.5) lies in the closed interval [36, 37.5]. -/
theorem roundTo1_fallback_bound (u : ℚ) (h0 : 0 ≤ u) (h1 : u < 1) :
    36 ≤ roundTo 1 (36.0 + u * 1.5) ∧ roundTo 1 (36.0 + u * 1.5) ≤ 37.5 := by
  have hx0 : (360:ℚ) ≤ (36.0 + u * 1.5) * 10 ^ 1 := by nlinarith
  have hx1 : (36.0 + u * 1.5) * 10 ^ 1 < 375 := by nlinarith
  have hfl0 : (360:ℤ) ≤ ⌊(36.0 + u * 1.5) * 10 ^ 1⌋ :=
    Int.le_floor.mpr (by exact_mod_cast hx0)
  have hfl1 : ⌊(36.0 + u * 1.5) * 10 ^ 1⌋ < 375 := Int.floor_lt.mpr (by exact_mod_cast hx1)
  have hc0 : (360:ℤ) ≤ rhe ((36.0 + u * 1.5) * 10 ^ 1) := by
    rcases rhe_cases ((36.0 + u * 1.5) * 10 ^ 1) with h | h <;> rw [h] <;> omega
  have hc1 : rhe ((36.0 + u * 1.5) * 10 ^ 1) ≤ 375 := by
    rcases rhe_cases ((36.0 + u * 1.5) * 10 ^ 1) with h | h <;> rw [h] <;> omega
  have hq0 : ((360:ℤ):ℚ) ≤ (rhe ((36.0 + u * 1.5) * 10 ^ 1) : ℚ) := Int.cast_le.mpr hc0
  have hq1 : (rhe ((36.0 + u * 1.5) * 10 ^ 1) : ℚ) ≤ ((375:ℤ):ℚ) := Int.cast_le.mpr hc1
  constructor
  · rw [roundTo, le_div_iff₀ (by norm_num : (0:ℚ) < 10 ^ 1)]
    push_cast at hq0 ⊢
    linarith
  · rw [roundTo, div_le_iff₀ (by norm_num : (0:ℚ) < 10 ^ 1)]
    push_cast at hq1 ⊢
    linarith

/-- C5 (amended): the extractor is total — every input yields exactly 8
temperature values and metadata with zones_analyzed = 8; on decode failure it
returns method = "simulated" with the failure reason recorded, each value the
1-decimal rounding of a pseudo-random sample drawn in [36.0, 37.5), hence
lying in the closed interval [36.0, 37.5] (37.5 reachable by rounding up). -/
theorem c5_extract_total_and_fallback (input : Except String Img) (rand : ℕ → ℚ) :
    (analyze_thermal_colors input rand).temperatures.length = 8 ∧
      (analyze_thermal_colors input rand).zones_analyzed = 8 ∧
      (∀ e, input = Except.error e →
        (analyze_thermal_colors input rand).method = "simulated" ∧
          (analyze_thermal_colors input rand).error = some e ∧
          ((∀ k, 0 ≤ rand k ∧ rand k < 1) →
            ∀ t ∈ (analyze_thermal_colors input rand).temperatures,
              36 ≤ t ∧ t ≤ 37.5)) := by
  cases input with
  | ok img =>
    refine ⟨rfl, rfl, fun e he => absurd he (by simp)⟩
  | error e0 =>
    refine ⟨rfl, rfl, fun e he => ?_⟩
    obtain rfl : e0 = e := by injection he
    refine ⟨rfl, rfl, ?_⟩
    intro hrand t ht
    simp only [analyze_thermal_colors, List.mem_map, List.mem_range] at ht
    obtain ⟨k, _, rfl⟩ := ht
    exact roundTo1_fallback_bound (rand k) (hrand k).1 (hrand k).2

/-- C5 witness: a corrupt input produces 8 simulated in-range values with the
failure reason recorded. -/
theorem c5_extract_total_and_fallback_witness :
    (analyze_thermal_colors (Except.error "cannot identify image file")
          (fun _ => 1/2)).temperatures.length = 8 ∧
      (analyze_thermal_colors (Except.error "cannot identify image file")
          (fun _ => 1/2)).method = "simulated" ∧
      (analyze_thermal_colors (Except.error "cannot identify image file")
          (fun _ => 1/2)).error = some "cannot identify image file" ∧
      ∀ t ∈ (analyze_thermal_colors (Except.error "cannot identify image file")
          (fun _ => 1/2)).temperatures, 36 ≤ t ∧ t ≤ 37.5 :=
  ⟨(c5_extract_total_and_fallback (Except.error "cannot identify image file")
      (fun _ => 1/2)).1,
   ((c5_extract_total_and_fallback (Except.error "cannot identify image file")
      (fun _ => 1/2)).2.2 "cannot identify image file" rfl).1,
   ((c5_extract_total_and_fallback (Except.error "cannot identify image file")
      (fun _ => 1/2)).2.2 "cannot identify image file" rfl).2.1,
   ((c5_extract_total_and_fallback (Except.error "cannot identify image file")
      (fun _ => 1/2)).2.2 "cannot identify image file" rfl).2.2
     (fun k => by norm_num)⟩

/-- C5 counterexample: with a sample of 0.999 every returned fallback value is
exactly 37.5, which lies outside the claimed half-open interval [36.0, 37.5) —
the returned values are rounded, so the upper bound is attained. -/
theorem c5_fallback_boundary_counterexample :
    (analyze_thermal_colors (Except.error "decode failure")
        (fun _ => 999/1000)).temperatures = List.replicate 8 (75/2) ∧
      ¬ ((75:ℚ)/2 < 75/2) := by
  constructor
  · have h1 : roundTo 1 (36.0 + (999/1000 : ℚ) * 1.5) = 75/2 := by
      norm_num [roundTo, rhe]
    simp only [analyze_thermal_colors, h1]
    simp [List.map_const', List.length_range]
  · norm_num

/-- C6 (amended): the successful decode path tiles the image into a 2×4 grid
traversed row-major, maps each tile's mean red channel through
temp = 34.0 + (red/255)·5.0, subtracts 0.5 when the mean green channel
strictly exceeds 0.8·red (no subtraction at exactly 0.8·red), rounds to
1 decimal, and reports zones_analyzed = 8 with method tag "rgb_mapping". -/
theorem c6_analyze_colors_success (img : Img) (rand : ℕ → ℚ)
    (_hh : 2 ≤ img.h) (_hw : 4 ≤ img.w) :
    (analyze_thermal_colors (Except.ok img) rand).method = "rgb_mapping" ∧
      (analyze_thermal_colors (Except.ok img) rand).zones_analyzed = 8 ∧
      (analyze_thermal_colors (Except.ok img) rand).error = none ∧
      (analyze_thermal_colors (Except.ok img) rand).temperatures =
        [tileTemp img 0 0, tileTemp img 0 1, tileTemp img 0 2, tileTemp img 0 3,
         tileTemp img 1 0, tileTemp img 1 1, tileTemp img 1 2, tileTemp img 1 3] ∧
      (∀ row col, tileTemp img row col =
        roundTo 1
          (if zoneAvgG img row col > zoneAvgR img row col * 0.8 then
            34.0 + zoneAvgR img row col / 255.0 * 5.0 - 0.5
          else 34.0 + zoneAvgR img row col / 255.0 * 5.0)) :=
  ⟨rfl, rfl, rfl, rfl, fun _ _ => rfl⟩

/-- C6 witness: the success-path characterization at a concrete 2×4 image. -/
theorem c6_analyze_colors_success_witness :
    (analyze_thermal_colors
        (Except.ok ⟨2, 4, fun _ _ => 10, fun _ _ => 8, fun _ _ => 0⟩)
        (fun _ => 0)).method = "rgb_mapping" ∧
      (analyze_thermal_colors
          (Except.ok ⟨2, 4, fun _ _ => 10, fun _ _ => 8, fun _ _ => 0⟩)
          (fun _ => 0)).zones_analyzed = 8 :=
  ⟨(c6_analyze_colors_success ⟨2, 4, fun _ _ => 10, fun _ _ => 8, fun _ _ => 0⟩
      (fun _ => 0) (by decide) (by decide)).1,
   (c6_analyze_colors_success ⟨2, 4, fun _ _ => 10, fun _ _ => 8, fun _ _ => 0⟩
      (fun _ => 0) (by decide) (by decide)).2.1⟩

/-- C6 counterexample: on a uniform image with green exactly 0.8 of red the
code does not subtract 0.5 (its test is strict), and the method tag is
"rgb_mapping", not "color-mapping" — refuting the claim's "green ≥ 0.8×red"
condition and its tag name. -/
theorem c6_boundary_counterexample :
    zoneAvgG ⟨2, 4, fun _ _ => 10, fun _ _ => 8, fun _ _ => 0⟩ 0 0 =
        zoneAvgR ⟨2, 4, fun _ _ => 10, fun _ _ => 8, fun _ _ => 0⟩ 0 0 * 0.8 ∧
      (analyze_thermal_colors
          (Except.ok ⟨2, 4, fun _ _ => 10, fun _ _ => 8, fun _ _ => 0⟩)
          (fun _ => 0)).temperatures.head? = some (171/5) ∧
      roundTo 1
          (34.0 + zoneAvgR ⟨2, 4, fun _ _ => 10, fun _ _ => 8, fun _ _ => 0⟩ 0 0
            / 255.0 * 5.0 - 0.5) = 337/10 ∧
      ((171:ℚ)/5 ≠ 337/10) ∧
      (analyze_thermal_colors
          (Except.ok ⟨2, 4, fun _ _ => 10, fun _ _ => 8, fun _ _ => 0⟩)
          (fun _ => 0)).method = "rgb_mapping" ∧
      ("rgb_mapping" ≠ "color-mapping") := by
  have hr : zoneAvgR ⟨2, 4, fun _ _ => 10, fun _ _ => 8, fun _ _ => 0⟩ 0 0 = 10 := by
    norm_num [zoneAvgR, zoneSum, Finset.sum_range_one]
  have hg : zoneAvgG ⟨2, 4, fun _ _ => 10, fun _ _ => 8, fun _ _ => 0⟩ 0 0 = 8 := by
    norm_num [zoneAvgG, zoneSum, Finset.sum_range_one]
  have ht : tileTemp ⟨2, 4, fun _ _ => 10, fun _ _ => 8, fun _ _ => 0⟩ 0 0 = 171/5 := by
    simp only [tileTemp, hr, hg]
    rw [if_neg (by norm_num)]
    norm_num [roundTo, rhe]
  refine ⟨?_, ?_, ?_, by norm_num, rfl, by decide⟩
  · rw [hr, hg]
    norm_num
  · have hhead : (analyze_thermal_colors
        (Except.ok ⟨2, 4, fun _ _ => 10, fun _ _ => 8, fun _ _ => 0⟩)
        (fun _ => 0)).temperatures.head? =
          some (tileTemp ⟨2, 4, fun _ _ => 10, fun _ _ => 8, fun _ _ => 0⟩ 0 0) := rfl
    rw [hhead, ht]
  · rw [hr]
    norm_num [roundTo, rhe]

end BreastMonitor
